import Mathlib

/-!
Verification of fredoist/simple-weather (src/js/utils.js, src/js/main.js).

The program is a small client-side weather page. We shallowly embed its
pure logic: the location resolver (`useLocation` plus the URL-parameter
override in main.js), the language resolver (`useLanguage`), the
condition-to-gradient mapper (`useGradient`), the view construction of the
`watch` callback, and the `render` replacement step. Browser platform
primitives (`String.prototype.split`, `String.prototype.includes`,
`URLSearchParams`) are modelled as explicit Lean functions on character
lists; asynchronous effects (geolocation, navigator.language) are modelled
as explicit environment values passed to the functions that read them.
-/

namespace SimpleWeather

/-- Model of JavaScript `str.split(sep)` (single-character separator) on
character lists: `"a&b".split("&") = ["a","b"]`, `"".split("&") = [""]`,
and empty segments are kept (`"a&&b" → ["a","","b"]`). -/
def splitChar (sep : Char) : List Char → List (List Char)
  | [] => [[]]
  | c :: cs =>
    if c = sep then [] :: splitChar sep cs
    else
      let r := splitChar sep cs
      (c :: r.headD []) :: r.tail

/-- Split a segment at the first occurrence of `sep`: the name part and the
part after the separator (empty when `sep` is absent). -/
def splitFirst (sep : Char) (l : List Char) : List Char × List Char :=
  (l.takeWhile (fun c => c ≠ sep), (l.dropWhile (fun c => c ≠ sep)).drop 1)

/-- Value of a hexadecimal digit, `none` for a non-hex character. -/
def hexVal (c : Char) : Option Nat :=
  if '0' ≤ c ∧ c ≤ '9' then some (c.toNat - '0'.toNat)
  else if 'a' ≤ c ∧ c ≤ 'f' then some (c.toNat - 'a'.toNat + 10)
  else if 'A' ≤ c ∧ c ≤ 'F' then some (c.toNat - 'A'.toNat + 10)
  else none

/-- Model of `application/x-www-form-urlencoded` value decoding as performed
by `URLSearchParams`: `+` becomes a space, `%hh` (two hex digits) becomes
the character with that code, an invalid `%` sequence is kept literally. -/
def percentDecodeGo : Nat → List Char → List Char
  | _, [] => []
  | 0, rest => rest
  | fuel + 1, '+' :: rest => ' ' :: percentDecodeGo fuel rest
  | fuel + 1, '%' :: h1 :: h2 :: rest2 =>
    match hexVal h1, hexVal h2 with
    | some a, some b => Char.ofNat (16 * a + b) :: percentDecodeGo fuel rest2
    | _, _ => '%' :: percentDecodeGo fuel (h1 :: h2 :: rest2)
  | fuel + 1, '%' :: rest => '%' :: percentDecodeGo fuel rest
  | fuel + 1, c :: rest => c :: percentDecodeGo fuel rest

/-- Decode a character list; every step consumes at least one character,
so fuel equal to the length is always enough and the fuel-exhausted case
of `percentDecodeGo` is unreachable. -/
def percentDecode (l : List Char) : List Char :=
  percentDecodeGo l.length l

/-- Model of `new URL(window.location).searchParams`: strip one leading
`?` from the search string, split on `&`, drop empty segments, and split
each segment at its first `=` into a decoded name/value pair. -/
def parseQuery (search : String) : List (String × String) :=
  let s :=
    match search.data with
    | '?' :: rest => rest
    | other => other
  ((splitChar '&' s).filter (fun seg => seg ≠ [])).map fun seg =>
    let p := splitFirst '=' seg
    (String.mk (percentDecode p.1), String.mk (percentDecode p.2))

/-- Model of `searchParams.get(name)`: the value of the first pair whose
name matches, `none` (JS `null`) when the parameter is absent. -/
def searchParamsGet (search : String) (name : String) : Option String :=
  (parseQuery search).lookup name

/-- Model of JavaScript `str.includes(pat)`: `pat` occurs as a contiguous
substring of `str`. -/
def hasSubstr (pat : List Char) : List Char → Bool
  | [] => decide (pat = [])
  | c :: cs => pat.isPrefixOf (c :: cs) || hasSubstr pat cs

/-- `str.includes(pat)` on Lean strings. -/
def jsIncludes (s pat : String) : Bool :=
  hasSubstr pat.data s.data

/-- Outcome of one browser geolocation attempt: a position with
coordinates, or a failure (the error code is ignored by the program). -/
inductive GeoResult where
  | success (latitude longitude : Int)
  | failure (code : Nat)
deriving DecidableEq, Repr

/-- Geolocation environment: `none` models a browser where
`navigator.geolocation` is absent; `some r` models support whose attempt
ends in `r`. -/
def GeoEnv : Type := Option GeoResult

/-- `useLocation` from src/js/utils.js: with geolocation support, resolve
`"{lat},{lon}"` on success and the sentinel `"auto:ip"` on failure; without
support, resolve `"auto:ip"`. Always resolves (a total function here). -/
def useLocation (env : GeoEnv) : String :=
  match env with
  | some (GeoResult.success la lo) => toString la ++ "," ++ toString lo
  | some (GeoResult.failure _) => "auto:ip"
  | none => "auto:ip"

/-- `useLanguage` from src/js/utils.js: the browser locale is
`navigator.language` (`none` when unset; `some ""` is falsy in JS like
unset). When truthy, resolve `language.split('-')[0]`; otherwise `"en"`. -/
def useLanguage (language : Option String) : String :=
  match language with
  | some s => if s ≠ "" then String.mk ((splitChar '-' s.data).headD []) else "en"
  | none => "en"

/-- The location computation of the `DOMContentLoaded` handler in
src/js/main.js: when `window.location.search` is truthy (non-empty),
the location is `searchParams.get('q')` (possibly JS `null`, i.e.
`none`); otherwise it is `await useLocation()`. -/
def resolveLocation (search : String) (env : GeoEnv) : Option String :=
  if search ≠ "" then searchParamsGet search "q"
  else some (useLocation env)

/-- A weather condition object from the API payload:
`{text, code, icon}`. -/
structure Condition where
  text : String
  code : Int
  icon : String
deriving DecidableEq, Repr

/-- Modelled from the spec: the condition lookup table of
src/js/condition-codes.js, which is imported by src/js/utils.js but absent
from the sources. The spec describes it only as "a static mapping from
category name (sunny, rainy, cloudy, drizzle, overcast, foggy) to a set of
integer condition codes", so the six code sets are kept as parameters. -/
structure Conditions where
  sunny : List Int
  rainy : List Int
  cloudy : List Int
  drizzle : List Int
  overcast : List Int
  foggy : List Int
deriving DecidableEq, Repr

/-- `useGradient` from src/js/utils.js: a `switch (true)` over category
membership of `condition.code`, each branch picking a gradient descriptor
by `condition.icon.includes('day')`. -/
def useGradient (conds : Conditions) (condition : Condition) : String :=
  let code := condition.code
  let isDay := jsIncludes condition.icon "day"
  if conds.sunny.contains code then
    if isDay then "--from: var(--orange); --to: var(--yellow)"
    else "--from: var(--navy); --to: var(--blue)"
  else if conds.rainy.contains code || conds.cloudy.contains code then
    if isDay then "--from: var(--blue); --to: var(--aqua)"
    else "--from: var(--navy); --to: var(--blue)"
  else if conds.drizzle.contains code then
    if isDay then "--from: var(--blue); --to: var(--teal)"
    else "--from: var(--navy); --to: var(--teal)"
  else if conds.overcast.contains code then
    if isDay then "--from: var(--navy); --to: var(--teal)"
    else "--from: var(--navy); --to: var(--olive)"
  else if conds.foggy.contains code then
    if isDay then "--from: var(--blue); --to: var(--olive)"
    else "--from: var(--navy); --to: var(--olive)"
  else
    if isDay then "--from: var(--blue); --to: var(--aqua)"
    else "--from: var(--navy); --to: var(--blue)"

/-- Spec-side restatement of the gradient decision procedure, for the
refinement claim: an ordered list of (category predicate, day descriptor,
night descriptor) cases — sunny, rainy-or-cloudy, drizzle, overcast,
foggy — searched first-match-wins, with the default case at the end. -/
def gradientCases (conds : Conditions) : List ((Int → Bool) × String × String) :=
  [ (fun c => conds.sunny.contains c,
     "--from: var(--orange); --to: var(--yellow)",
     "--from: var(--navy); --to: var(--blue)")
  , (fun c => conds.rainy.contains c || conds.cloudy.contains c,
     "--from: var(--blue); --to: var(--aqua)",
     "--from: var(--navy); --to: var(--blue)")
  , (fun c => conds.drizzle.contains c,
     "--from: var(--blue); --to: var(--teal)",
     "--from: var(--navy); --to: var(--teal)")
  , (fun c => conds.overcast.contains c,
     "--from: var(--navy); --to: var(--teal)",
     "--from: var(--navy); --to: var(--olive)")
  , (fun c => conds.foggy.contains c,
     "--from: var(--blue); --to: var(--olive)",
     "--from: var(--navy); --to: var(--olive)") ]

/-- Spec-side first-match gradient lookup over `gradientCases`, falling
through to the default gradient (blue/aqua by day, navy/blue by night). -/
def firstMatchGradient (conds : Conditions) (condition : Condition) : String :=
  let isDay := jsIncludes condition.icon "day"
  match (gradientCases conds).find? (fun p => p.1 condition.code) with
  | some p => if isDay then p.2.1 else p.2.2
  | none =>
    if isDay then "--from: var(--blue); --to: var(--aqua)"
    else "--from: var(--navy); --to: var(--blue)"

/-- The seven distinct gradient descriptor strings `useGradient` can
produce. -/
def gradientDescriptors : List String :=
  [ "--from: var(--orange); --to: var(--yellow)"
  , "--from: var(--navy); --to: var(--blue)"
  , "--from: var(--blue); --to: var(--aqua)"
  , "--from: var(--blue); --to: var(--teal)"
  , "--from: var(--navy); --to: var(--teal)"
  , "--from: var(--navy); --to: var(--olive)"
  , "--from: var(--blue); --to: var(--olive)" ]

/-- `location` sub-object of the API payload. -/
structure WLocation where
  name : String
  country : String
  localtime : String
deriving DecidableEq, Repr

/-- `current` sub-object of the API payload. Numeric fields are modelled
as integers (the mocked payload of the spec uses integer values; JS
numbers interpolate as their decimal text, which `toString` matches on
integers). -/
structure Current where
  temp_f : Int
  condition : Condition
  wind_mph : Int
  humidity : Int
  pressure_mb : Int
deriving DecidableEq, Repr

/-- The weather API payload: `{location, current}`. -/
structure WeatherResponse where
  location : WLocation
  current : Current
deriving DecidableEq, Repr

/-- One entry of the stats list: icon name and display value. -/
structure StatItem where
  icon : String
  value : String
deriving DecidableEq, Repr

/-- The `stats` array built by the watch callback in src/js/main.js. -/
def buildStats (current : Current) : List StatItem :=
  [ { icon := "wind", value := toString current.wind_mph ++ " mph" }
  , { icon := "humidity", value := toString current.humidity ++ "%" }
  , { icon := "pressure", value := toString current.pressure_mb ++ " mb" } ]

/-- The interpolated content of the `App` template fragment built by the
watch callback: temperature text, condition text, location name, the two
`datetime` attributes (`localtime.split(' ')[0]` and `[1]`), and the stats
list. The locale-formatted date/time display texts
(`toLocaleDateString`/`toLocaleTimeString`) are platform locale rendering
and are not modelled. -/
structure AppFragment where
  temperature : String
  conditionText : String
  locationName : String
  dateAttr : String
  timeAttr : String
  stats : List StatItem
deriving DecidableEq, Repr

/-- The `App` fragment as built by the watch callback in src/js/main.js. -/
def buildApp (data : WeatherResponse) : AppFragment :=
  { temperature := toString data.current.temp_f ++ "°F"
  , conditionText := data.current.condition.text
  , locationName := data.location.name
  , dateAttr := String.mk ((splitChar ' ' data.location.localtime.data).headD [])
  , timeAttr := String.mk (((splitChar ' ' data.location.localtime.data).drop 1).headD [])
  , stats := buildStats data.current }

/-- The document title set by the watch callback:
`Weather forecast in ${location.name}, ${location.country}`. -/
def pageTitle (data : WeatherResponse) : String :=
  "Weather forecast in " ++ data.location.name ++ ", " ++ data.location.country

/-- `render` from src/js/utils.js on the children of the `#app`
container: clear (`innerHTML = null`) then append the fragment. Generic in
the fragment type. -/
def clearChildren {α : Type} (_ : List α) : List α := []

/-- `appendChild` on a child list. -/
def appendChild {α : Type} (app : α) (children : List α) : List α :=
  children ++ [app]

/-- The two steps of `render`: clear the container, then append. -/
def render {α : Type} (app : α) (dom : List α) : List α :=
  appendChild app (clearChildren dom)

/-- One emission of the SWR observable: `{ data }`, where `data` is
`none` when absent/falsy. -/
structure Emission where
  data : Option WeatherResponse
deriving DecidableEq, Repr

/-- The page state touched by the watch callback: the document title and
the children of the `#app` container. -/
structure PageState where
  title : String
  appChildren : List AppFragment
deriving DecidableEq, Repr

/-- The `observable.watch` callback of src/js/main.js as a state
transformer: when `data` is present it sets the title and renders the
freshly built fragment; when `data` is absent it does nothing. -/
def watchCallback (e : Emission) (st : PageState) : PageState :=
  match e.data with
  | some d =>
    { title := pageTitle d
    , appChildren := render (buildApp d) st.appChildren }
  | none => st

/-- The mocked payload of the spec's end-to-end test. -/
def parisPayload : WeatherResponse :=
  { location := { name := "Paris", country := "France", localtime := "2024-01-01 13:00" }
  , current :=
    { temp_f := 50
    , condition := { text := "Clear", code := 1000, icon := "day.png" }
    , wind_mph := 5
    , humidity := 60
    , pressure_mb := 1012 } }

/-- An empty search string parses to no parameters, so `get` yields
`none` for every name. -/
theorem searchParamsGet_empty (name : String) : searchParamsGet "" name = none := rfl

/-- The first group of a character-split is the prefix of characters
before the first separator. -/
theorem splitChar_headD (sep : Char) (l : List Char) :
    (splitChar sep l).headD [] = l.takeWhile (fun c => c ≠ sep) := by
  induction l with
  | nil => rfl
  | cons c cs ih =>
    by_cases h : c = sep <;>
      simp [splitChar, h, List.takeWhile_cons] at ih ⊢ <;> simp [ih]

/-- C1: if the page URL carries a `q` query parameter, the resolved
location is that parameter's value, for every geolocation environment —
the result does not depend on the environment, so geolocation is never
consulted. The witness instantiates this at the URL query `?q=Paris`,
where the resolved location equals `"Paris"`. -/
theorem query_param_overrides_geolocation (search v : String)
    (h : searchParamsGet search "q" = some v) :
    ∀ env : GeoEnv, resolveLocation search env = some v := by
  intro env
  have hne : search ≠ "" := by
    rintro rfl
    rw [searchParamsGet_empty] at h
    cases h
  simp [resolveLocation, hne, h]

/-- Witness for C1 at the concrete query `?q=Paris`, for both a
successful-geolocation environment and an unsupported one. -/
theorem query_param_overrides_geolocation_witness :
    searchParamsGet "?q=Paris" "q" = some "Paris" ∧
    resolveLocation "?q=Paris" (some (GeoResult.success 48 2)) = some "Paris" ∧
    resolveLocation "?q=Paris" none = some "Paris" :=
  ⟨by decide,
   query_param_overrides_geolocation "?q=Paris" "Paris" (by decide) _,
   query_param_overrides_geolocation "?q=Paris" "Paris" (by decide) _⟩

/-- C2: for a non-empty query string without a `q` parameter, the
resolved location is `none` (JS `null`) in every geolocation environment,
so it is neither the geolocation result nor the sentinel `"auto:ip"`, and
geolocation is never consulted. -/
theorem nonempty_query_without_q_gives_null (search : String)
    (hne : search ≠ "") (h : searchParamsGet search "q" = none) :
    ∀ env : GeoEnv, resolveLocation search env = none := by
  intro env
  simp [resolveLocation, hne, h]

/-- Witness for C2 at the concrete query `?foo=bar`. -/
theorem nonempty_query_without_q_gives_null_witness :
    ("?foo=bar" : String) ≠ "" ∧
    searchParamsGet "?foo=bar" "q" = none ∧
    resolveLocation "?foo=bar" (some (GeoResult.success 48 2)) = none ∧
    resolveLocation "?foo=bar" none = none :=
  ⟨by decide, by decide,
   nonempty_query_without_q_gives_null "?foo=bar" (by decide) (by decide) _,
   nonempty_query_without_q_gives_null "?foo=bar" (by decide) (by decide) _⟩

/-- C3: for every condition code in the sunny set, the gradient mapper
returns the orange/yellow descriptor when the icon name contains `"day"`
and the navy/blue descriptor when it does not. -/
theorem sunny_gradient (conds : Conditions) (cond : Condition)
    (h : cond.code ∈ conds.sunny) :
    useGradient conds cond =
      if jsIncludes cond.icon "day" then "--from: var(--orange); --to: var(--yellow)"
      else "--from: var(--navy); --to: var(--blue)" := by
  simp [useGradient, h]

/-- Witness for C3: a one-code sunny table, with a day icon and with a
night icon. -/
theorem sunny_gradient_witness :
    (1000 : Int) ∈ [(1000 : Int)] ∧
    useGradient ⟨[1000], [], [], [], [], []⟩ ⟨"Clear", 1000, "day.png"⟩ =
      "--from: var(--orange); --to: var(--yellow)" ∧
    useGradient ⟨[1000], [], [], [], [], []⟩ ⟨"Clear", 1000, "night.png"⟩ =
      "--from: var(--navy); --to: var(--blue)" := by
  refine ⟨by decide, ?_, ?_⟩
  · rw [sunny_gradient ⟨[1000], [], [], [], [], []⟩ ⟨"Clear", 1000, "day.png"⟩ (by decide)]
    decide
  · rw [sunny_gradient ⟨[1000], [], [], [], [], []⟩ ⟨"Clear", 1000, "night.png"⟩ (by decide)]
    decide

/-- C4: for every condition code in none of the category sets, the
gradient mapper returns the default descriptor: blue/aqua when the icon
name contains `"day"`, navy/blue otherwise. -/
theorem unmatched_code_default_gradient (conds : Conditions) (cond : Condition)
    (hs : cond.code ∉ conds.sunny) (hr : cond.code ∉ conds.rainy)
    (hc : cond.code ∉ conds.cloudy) (hd : cond.code ∉ conds.drizzle)
    (ho : cond.code ∉ conds.overcast) (hf : cond.code ∉ conds.foggy) :
    useGradient conds cond =
      if jsIncludes cond.icon "day" then "--from: var(--blue); --to: var(--aqua)"
      else "--from: var(--navy); --to: var(--blue)" := by
  simp [useGradient, hs, hr, hc, hd, ho, hf]

/-- Witness for C4: code 9999 against a nonempty table, day and night. -/
theorem unmatched_code_default_gradient_witness :
    (9999 : Int) ∉ [(1000 : Int)] ∧
    useGradient ⟨[1000], [1063], [1003], [1150], [1009], [1030]⟩ ⟨"?", 9999, "day.png"⟩ =
      "--from: var(--blue); --to: var(--aqua)" ∧
    useGradient ⟨[1000], [1063], [1003], [1150], [1009], [1030]⟩ ⟨"?", 9999, "night.png"⟩ =
      "--from: var(--navy); --to: var(--blue)" := by
  refine ⟨by decide, ?_, ?_⟩
  · rw [unmatched_code_default_gradient ⟨[1000], [1063], [1003], [1150], [1009], [1030]⟩
      ⟨"?", 9999, "day.png"⟩ (by decide) (by decide) (by decide) (by decide) (by decide)
      (by decide)]
    decide
  · rw [unmatched_code_default_gradient ⟨[1000], [1063], [1003], [1150], [1009], [1030]⟩
      ⟨"?", 9999, "night.png"⟩ (by decide) (by decide) (by decide) (by decide) (by decide)
      (by decide)]
    decide

/-- C5: the gradient mapper is total — on every input it returns one of
the seven gradient descriptor strings — and it coincides with the
spec-side first-match lookup over the ordered category cases
(sunny, rainy-or-cloudy, drizzle, overcast, foggy, then default). -/
theorem gradient_total_first_match (conds : Conditions) (cond : Condition) :
    useGradient conds cond = firstMatchGradient conds cond ∧
    useGradient conds cond ∈ gradientDescriptors := by
  by_cases hs : cond.code ∈ conds.sunny <;>
  by_cases hr : cond.code ∈ conds.rainy <;>
  by_cases hc : cond.code ∈ conds.cloudy <;>
  by_cases hd : cond.code ∈ conds.drizzle <;>
  by_cases ho : cond.code ∈ conds.overcast <;>
  by_cases hf : cond.code ∈ conds.foggy <;>
  cases hday : jsIncludes cond.icon "day" <;>
  simp [useGradient, firstMatchGradient, gradientCases, gradientDescriptors, List.find?,
    hs, hr, hc, hd, ho, hf, hday]

/-- C6: the language resolver maps a locale string to the prefix before
its first hyphen (the primary language subtag) and an unavailable locale
to `"en"`; it is a total function, so it always resolves. -/
theorem language_primary_subtag (s : String) (h : '-' ∈ s.data) :
    useLanguage (some s) = String.mk (s.data.takeWhile (fun c => c ≠ '-')) ∧
    useLanguage none = "en" := by
  have hne : s ≠ "" := by
    rintro rfl
    exact absurd h (by decide)
  refine ⟨?_, rfl⟩
  simp only [useLanguage]
  rw [if_pos hne, splitChar_headD]

/-- Witness for C6 at the locale `"en-US"`. -/
theorem language_primary_subtag_witness :
    '-' ∈ "en-US".data ∧ useLanguage (some "en-US") = "en" ∧ useLanguage none = "en" := by
  refine ⟨by decide, ?_, (language_primary_subtag "en-US" (by decide)).2⟩
  rw [(language_primary_subtag "en-US" (by decide)).1]
  decide

/-- C7: without geolocation support the resolver returns the sentinel
`"auto:ip"`, and every failed geolocation attempt (any error code) also
returns `"auto:ip"`; `useLocation` is a total function, so it always
resolves and never rejects. -/
theorem geolocation_failure_sentinel :
    useLocation none = "auto:ip" ∧
    ∀ code : Nat, useLocation (some (GeoResult.failure code)) = "auto:ip" :=
  ⟨rfl, fun _ => rfl⟩

/-- C8: for every payload the page title is exactly
`"Weather forecast in {name}, {country}"` and the displayed temperature
text is exactly `"{temp_f}°F"`; at the spec's mocked Paris payload these
are `"Weather forecast in Paris, France"` and `"50°F"`. -/
theorem title_and_temperature_format :
    (∀ data : WeatherResponse,
      pageTitle data =
        "Weather forecast in " ++ data.location.name ++ ", " ++ data.location.country ∧
      (buildApp data).temperature = toString data.current.temp_f ++ "°F") ∧
    pageTitle parisPayload = "Weather forecast in Paris, France" ∧
    (buildApp parisPayload).temperature = "50°F" :=
  ⟨fun _ => ⟨rfl, rfl⟩, by decide, by decide⟩

/-- C9: rendering is idempotent — rendering the same fragment twice
leaves the container's children identical to rendering it once — because
each call clears the container and appends the fragment, a full
replacement. -/
theorem render_idempotent (app : AppFragment) (dom : List AppFragment) :
    render app (render app dom) = render app dom ∧ render app dom = [app] :=
  ⟨rfl, rfl⟩

/-- C10: an emission whose `data` is absent leaves the page state — the
`#app` children and the document title — unchanged. -/
theorem absent_data_no_mutation (e : Emission) (st : PageState)
    (h : e.data = none) : watchCallback e st = st := by
  unfold watchCallback
  rw [h]

/-- Witness for C10 at a concrete empty emission and nontrivial state. -/
theorem absent_data_no_mutation_witness :
    (Emission.mk none).data = none ∧
    watchCallback ⟨none⟩ ⟨"old title", [buildApp parisPayload]⟩ =
      ⟨"old title", [buildApp parisPayload]⟩ :=
  ⟨rfl, absent_data_no_mutation ⟨none⟩ ⟨"old title", [buildApp parisPayload]⟩ rfl⟩

end SimpleWeather
